import Mathlib

/-!
Verification development for the bytebase task-execution subsystem.

Shallow embedding of:
* `store/pipeline.go` — the `PipelineService` entity store (transactional
  CRUD over a pipeline table with a write-through cache);
* `server/task_executor_database_backup.go` — the database backup task
  executor (`RunOnce`, `backupDatabase`, `dumpBackupFile`,
  `removeLocalBackupFile`, and the backup path helpers).

The database, the filesystem, and the external collaborators (SQL engine,
statfs, database driver, S3 client) are modelled by explicit state passing
plus an environment of oracles giving each external call's outcome, so that
every control-flow path of the Go code is represented.
-/

/-! ## Pipeline entity store (`store/pipeline.go`) -/

/-- `api.PipelineStatus`: status of a pipeline. -/
inductive PipelineStatus
  | OPEN
  | DONE
  | CANCELED
deriving DecidableEq, Repr

/-- `api.Pipeline`: one row of the `pipeline` table, as scanned by
`row.Scan(&id, &creator_id, &created_ts, &updater_id, &updated_ts, &name, &status)`. -/
structure Pipeline where
  id : Nat
  creatorId : Nat
  createdTs : Int
  updaterId : Nat
  updatedTs : Int
  name : String
  status : PipelineStatus
deriving DecidableEq, Repr

/-- `api.PipelineCreate`. -/
structure PipelineCreate where
  creatorId : Nat
  name : String
deriving DecidableEq, Repr

/-- `api.PipelinePatch`. -/
structure PipelinePatch where
  id : Nat
  updaterId : Nat
  status : Option PipelineStatus
deriving DecidableEq, Repr

/-- `api.PipelineFind`: the filter of `FindPipeline`/`findPipelineList`. -/
structure PipelineFind where
  id : Option Nat
  status : Option PipelineStatus
deriving DecidableEq, Repr

/-- `bytebase.Error` codes used by the pipeline service. `EINTERNAL` stands
for every error produced by the infrastructure (begin/query/commit/cache),
which the Go code wraps with `FormatError` without giving it one of the
domain codes. -/
inductive ErrorCode
  | ENOTFOUND
  | ECONFLICT
  | EINTERNAL
deriving DecidableEq, Repr

/-- `bytebase.Error`: code plus message. -/
structure BBError where
  code : ErrorCode
  message : String
deriving DecidableEq, Repr

/-- State of the relational store and the cache as seen by the pipeline
service. `txCount` counts the `BeginTx` calls made against the transactional
store, so that "does not touch the transactional store" is observable. -/
structure StoreState where
  table : List Pipeline
  nextId : Nat
  cache : List (Nat × Pipeline)
  txCount : Nat
deriving DecidableEq, Repr

/-- Outcomes of the external calls a single pipeline-service operation makes:
`BeginTx`, `tx.QueryContext`, `tx.Commit`, `cache.FindCache`,
`cache.UpsertCache`, and the transaction timestamp. -/
structure StoreEnv where
  beginOk : Bool
  queryOk : Bool
  commitOk : Bool
  cacheFindOk : Bool
  cacheUpsertOk : Bool
  now : Int
deriving Repr

/-- `cache.UpsertCache(api.PipelineCache, id, p)`: the new entry shadows any
older entry with the same id. -/
def upsertCache (id : Nat) (p : Pipeline) (c : List (Nat × Pipeline)) :
    List (Nat × Pipeline) :=
  (id, p) :: c

/-- `cache.FindCache(api.PipelineCache, id, &pipeline)`: the `has` result and
the deserialized entry. -/
def findCache (c : List (Nat × Pipeline)) (id : Nat) : Option Pipeline :=
  (c.find? (fun e => e.1 = id)).map (fun e => e.2)

/-- The WHERE clause built by `findPipelineList`: `1 = 1`, plus `id = ?` when
`find.ID` is set, plus `status = ?` when `find.Status` is set. -/
def pipelineMatches (find : PipelineFind) (p : Pipeline) : Bool :=
  (match find.id with
    | some i => p.id = i
    | none => true) &&
  (match find.status with
    | some s => p.status = s
    | none => true)

/-- `findPipelineList`: SELECT of all rows satisfying the WHERE clause, in
table order. -/
def findPipelineList (find : PipelineFind) (table : List Pipeline) :
    List Pipeline :=
  table.filter (pipelineMatches find)

/-- The row produced by `createPipeline`'s INSERT ... RETURNING: fresh id,
creator also recorded as updater, both timestamps set by the engine at
insert, status `'OPEN'`. -/
def createPipelineRow (env : StoreEnv) (create : PipelineCreate)
    (st : StoreState) : Pipeline :=
  { id := st.nextId
    creatorId := create.creatorId
    createdTs := env.now
    updaterId := create.creatorId
    updatedTs := env.now
    name := create.name
    status := .OPEN }

/-- `PipelineService.CreatePipeline`: BeginTx, `createPipeline` (INSERT with
RETURNING), Commit, then `UpsertCache`; `defer tx.Rollback()` discards the
insert on any failure before a successful commit. -/
def CreatePipeline (env : StoreEnv) (create : PipelineCreate)
    (st : StoreState) : Except BBError Pipeline × StoreState :=
  let st1 : StoreState := { st with txCount := st.txCount + 1 }
  if env.beginOk then
    if env.queryOk then
      let pipeline := createPipelineRow env create st
      if env.commitOk then
        let st2 : StoreState :=
          { st1 with table := st1.table ++ [pipeline], nextId := st1.nextId + 1 }
        if env.cacheUpsertOk then
          (.ok pipeline,
            { st2 with cache := upsertCache pipeline.id pipeline st2.cache })
        else
          (.error ⟨.EINTERNAL, "failed to upsert pipeline cache"⟩, st2)
      else
        (.error ⟨.EINTERNAL, "failed to commit transaction"⟩, st1)
    else
      (.error ⟨.EINTERNAL, "failed to execute insert returning"⟩, st1)
  else
    (.error ⟨.EINTERNAL, "failed to begin transaction"⟩, st1)

/-- `patchPipeline`'s UPDATE SET clause applied to a matched row:
`updater_id = ?` always, `status = ?` when `patch.Status` is set. -/
def patchPipelineRow (patch : PipelinePatch) (p : Pipeline) : Pipeline :=
  { p with
    updaterId := patch.updaterId
    status := match patch.status with
      | some s => s
      | none => p.status }

/-- `PipelineService.PatchPipeline`: BeginTx, `patchPipeline` (UPDATE ...
WHERE id = ? RETURNING; no returned row yields `ENOTFOUND`), Commit, then
`UpsertCache`; `defer tx.Rollback()` discards the update on any failure
before a successful commit. -/
def PatchPipeline (env : StoreEnv) (patch : PipelinePatch)
    (st : StoreState) : Except BBError Pipeline × StoreState :=
  let st1 : StoreState := { st with txCount := st.txCount + 1 }
  if env.beginOk then
    if env.queryOk then
      match st.table.find? (fun p => p.id = patch.id) with
      | none =>
          (.error ⟨.ENOTFOUND, "pipeline ID not found: " ++ toString patch.id⟩,
            st1)
      | some row =>
          let pipeline := patchPipelineRow patch row
          if env.commitOk then
            let st2 : StoreState :=
              { st1 with
                table := st1.table.map
                  (fun q => if q.id = patch.id then pipeline else q) }
            if env.cacheUpsertOk then
              (.ok pipeline,
                { st2 with cache := upsertCache pipeline.id pipeline st2.cache })
            else
              (.error ⟨.EINTERNAL, "failed to upsert pipeline cache"⟩, st2)
          else
            (.error ⟨.EINTERNAL, "failed to commit transaction"⟩, st1)
    else
      (.error ⟨.EINTERNAL, "failed to execute update returning"⟩, st1)
  else
    (.error ⟨.EINTERNAL, "failed to begin transaction"⟩, st1)

/-- The store-querying tail of `FindPipeline` (after the cache probe):
BeginTx, `findPipelineList`, then the 0/1/many discrimination, then
`UpsertCache` of the unique row. -/
def findPipelineStore (env : StoreEnv) (find : PipelineFind)
    (st : StoreState) : Except BBError Pipeline × StoreState :=
  let st1 : StoreState := { st with txCount := st.txCount + 1 }
  if env.beginOk then
    if env.queryOk then
      match findPipelineList find st.table with
      | [] =>
          (.error ⟨.ENOTFOUND, "pipeline not found"⟩, st1)
      | [pipeline] =>
          if env.cacheUpsertOk then
            (.ok pipeline,
              { st1 with cache := upsertCache pipeline.id pipeline st1.cache })
          else
            (.error ⟨.EINTERNAL, "failed to upsert pipeline cache"⟩, st1)
      | p :: q :: rest =>
          (.error ⟨.ECONFLICT,
            "found " ++ toString (p :: q :: rest).length ++
              " pipelines, expect 1"⟩, st1)
    else
      (.error ⟨.EINTERNAL, "failed to execute select"⟩, st1)
  else
    (.error ⟨.EINTERNAL, "failed to begin transaction"⟩, st1)

/-- `PipelineService.FindPipeline`: when `find.ID != nil`, probe the cache
(`FindCache` may itself error); on a hit return the cached entry with no
store access; otherwise fall through to the store query. -/
def FindPipeline (env : StoreEnv) (find : PipelineFind)
    (st : StoreState) : Except BBError Pipeline × StoreState :=
  match find.id with
  | some i =>
      if env.cacheFindOk then
        match findCache st.cache i with
        | some pipeline => (.ok pipeline, st)
        | none => findPipelineStore env find st
      else
        (.error ⟨.EINTERNAL, "failed to find pipeline cache"⟩, st)
  | none => findPipelineStore env find st

/-! ## Database backup task executor (`server/task_executor_database_backup.go`) -/

/-- `api.BackupStorageBackend` (a string type in Go); `other` carries any
value outside the two recognised constants. -/
inductive BackupStorageBackend
  | LOCAL
  | S3
  | other (s : String)
deriving DecidableEq, Repr

/-- The fields of `api.Backup` the executor reads. -/
structure Backup where
  id : Nat
  databaseID : Nat
  name : String
  storageBackend : BackupStorageBackend
  path : String
deriving DecidableEq, Repr

/-- The `api.BackupPatch` submitted by `RunOnce` to `store.PatchBackup`. -/
structure BackupPatch where
  id : Nat
  status : String
  updaterID : Nat
  comment : String
  payload : String
deriving DecidableEq, Repr

/-- `api.SystemBotID`. -/
def systemBotID : Nat := 1

/-- `minAvailableFSBytes = 500 * 1024 * 1024`: do not dump a backup file when
the available file system space is below this. -/
def minAvailableFSBytes : Nat := 500 * 1024 * 1024

/-- `pkg/errors` wrapping: `errors.Wrap(err, msg).Error() = msg ++ ": " ++ err`. -/
def wrapErr (e msg : String) : String :=
  msg ++ ": " ++ e

/-- Go `%q` of a path or name (no escaping needed for the inputs here). -/
def goQuote (s : String) : String :=
  "\"" ++ s ++ "\""

/-- `filepath.Join` on already-clean, non-empty slash-separated paths. -/
def filepathJoin (a b : String) : String :=
  a ++ "/" ++ b

/-- `getBackupRelativeDir`: `filepath.Join("backup", "db", databaseID)`. -/
def getBackupRelativeDir (databaseID : Nat) : String :=
  filepathJoin (filepathJoin "backup" "db") (toString databaseID)

/-- `getBackupRelativeFilePath`: `filepath.Join(dir, name + ".sql")`. -/
def getBackupRelativeFilePath (databaseID : Nat) (name : String) : String :=
  filepathJoin (getBackupRelativeDir databaseID) (name ++ ".sql")

/-- `getBackupAbsFilePath`: `filepath.Join(dataDir, relativePath)`. -/
def getBackupAbsFilePath (dataDir : String) (databaseID : Nat) (name : String) :
    String :=
  filepathJoin dataDir (getBackupRelativeFilePath databaseID name)

/-- `filepath.Dir` on already-clean slash-separated paths: everything before
the final separator. -/
def filepathDir (p : String) : String :=
  String.intercalate "/" ((p.splitOn "/").dropLast)

/-- The filesystem is the set of paths of existing regular files. -/
abbrev FileSystem := List String

/-- `os.Create`: truncates if present, creates otherwise. -/
def fsCreate (p : String) (fs : FileSystem) : FileSystem :=
  if p ∈ fs then fs else p :: fs

/-- `os.Remove` of an existing file. -/
def fsRemove (p : String) (fs : FileSystem) : FileSystem :=
  fs.filter (fun q => q ≠ p)

/-- Outcomes of the external calls made during one `RunOnce` invocation, plus
the task/profile data the executor reads. Each field is the result the named
collaborator would return if called. -/
structure BackupEnv where
  /-- `json.Unmarshal` of `task.Payload` into `TaskDatabaseBackupPayload`:
  the decoded `BackupID`, or the unmarshal error. -/
  decodeResult : Except String Nat
  /-- `store.GetBackupByID`: error, or `nil`, or the backup entity. -/
  getBackup : Except String (Option Backup)
  /-- `unix.Statfs` at the backup file dir: error, or `Bavail * Bsize`. -/
  statfs : Except String Nat
  /-- `dbFactory.GetAdminDatabaseDriver`. -/
  getDriver : Except String Unit
  /-- `os.Create` of the local backup file succeeds. -/
  createOk : Bool
  /-- `driver.Dump(ctx, databaseName, backupFile, false)`: the payload
  string, or the dump error. -/
  dump : Except String String
  /-- `os.Open` of the just-written file for the S3 upload. -/
  openRes : Except String Unit
  /-- `s3Client.UploadObject(ctx, backup.Path, file)`. -/
  upload : Except String Unit
  /-- `store.PatchBackup`. -/
  patchRes : Except String Unit
  /-- `profile.DataDir`. -/
  dataDir : String
  /-- `task.Database.Name`. -/
  databaseName : String
deriving Repr

/-- Result of one `RunOnce` invocation: the three return values, the final
filesystem, and the `PatchBackup` calls issued (in order). -/
structure RunOnceResult where
  terminated : Bool
  result : Option String
  err : Option String
  fs : FileSystem
  patchCalls : List BackupPatch
deriving DecidableEq, Repr

/-- `getAvailableFSSpace`: `unix.Statfs` wrapped, returning
`Bavail * Bsize`. -/
def getAvailableFSSpace (env : BackupEnv) : Except String Nat :=
  match env.statfs with
  | .error e => .error (wrapErr e "failed to call syscall statfs")
  | .ok stat => .ok stat

/-- `dumpBackupFile`: `os.Create` the destination (an `Errorf` failure if it
cannot be opened), then `driver.Dump`; a failed dump leaves the created file
on disk. -/
def dumpBackupFile (env : BackupEnv) (fs : FileSystem)
    (backupFilePath : String) : Except String String × FileSystem :=
  if env.createOk then
    let fs1 := fsCreate backupFilePath fs
    match env.dump with
    | .ok payload => (.ok payload, fs1)
    | .error e =>
        (.error (wrapErr e ("failed to dump database " ++
          goQuote env.databaseName ++ " to local backup file " ++
          goQuote backupFilePath)), fs1)
  else
    (.error ("failed to open backup path " ++ goQuote backupFilePath), fs)

/-- `backupDatabase`: acquire the admin driver, dump to
`filepath.Join(profile.DataDir, backup.Path)`, then branch on the storage
backend; for `S3` re-open the file, upload it under key `backup.Path`, and on
upload success remove the local file (a removal failure is only logged). -/
def backupDatabase (env : BackupEnv) (fs : FileSystem) (backup : Backup) :
    Except String String × FileSystem :=
  match env.getDriver with
  | .error e => (.error e, fs)
  | .ok _ =>
    let backupFilePathLocal := filepathJoin env.dataDir backup.path
    match dumpBackupFile env fs backupFilePathLocal with
    | (.error e, fs1) =>
        (.error (wrapErr e ("failed to dump backup file " ++
          goQuote backupFilePathLocal)), fs1)
    | (.ok payload, fs1) =>
        match backup.storageBackend with
        | .LOCAL => (.ok payload, fs1)
        | .S3 =>
            match env.openRes with
            | .error e =>
                (.error (wrapErr e ("failed to open backup file " ++
                  goQuote backupFilePathLocal ++
                  " for uploading to s3 bucket")), fs1)
            | .ok _ =>
                match env.upload with
                | .error e =>
                    (.error (wrapErr e "failed to upload backup to AWS S3"),
                      fs1)
                | .ok _ => (.ok payload, fsRemove backupFilePathLocal fs1)
        | .other s =>
            (.error ("backup to " ++ s ++ " not implemented yet"), fs1)

/-- `removeLocalBackupFile`: a no-op for non-LOCAL backends; otherwise
`os.Remove` of `getBackupAbsFilePath(dataDir, backup.DatabaseID,
backup.Name)`, an error if the file does not exist. -/
def removeLocalBackupFile (dataDir : String) (backup : Backup)
    (fs : FileSystem) : Except String Unit × FileSystem :=
  if backup.storageBackend ≠ .LOCAL then
    (.ok (), fs)
  else
    let backupFilePath := getBackupAbsFilePath dataDir backup.databaseID backup.name
    if backupFilePath ∈ fs then
      (.ok (), fsRemove backupFilePath fs)
    else
      (.error (wrapErr "no such file or directory"
        ("failed to delete the local backup file " ++ backupFilePath)), fs)

/-- The tail of `RunOnce` after the LOCAL space check: run `backupDatabase`,
derive status/comment, on a backup error remove the local file (the removal
error is only logged), then `PatchBackup`, then return the backup error or
the success result. -/
def runOnceBackupPhase (env : BackupEnv) (fs : FileSystem) (backup : Backup) :
    RunOnceResult :=
  let res := backupDatabase env fs backup
  let backupPayload := match res.1 with
    | .ok p => p
    | .error _ => ""
  let backupStatus := match res.1 with
    | .ok _ => "DONE"
    | .error _ => "FAILED"
  let comment := match res.1 with
    | .ok _ => ""
    | .error e => e
  let fs2 := match res.1 with
    | .ok _ => res.2
    | .error _ => (removeLocalBackupFile env.dataDir backup res.2).2
  let backupPatch : BackupPatch :=
    { id := backup.id
      status := backupStatus
      updaterID := systemBotID
      comment := comment
      payload := backupPayload }
  match env.patchRes with
  | .error e =>
      { terminated := true, result := none
        err := some (wrapErr e "failed to patch backup")
        fs := fs2, patchCalls := [backupPatch] }
  | .ok _ =>
      match res.1 with
      | .error backupErr =>
          { terminated := true, result := none, err := some backupErr
            fs := fs2, patchCalls := [backupPatch] }
      | .ok _ =>
          { terminated := true
            result := some ("Backup database " ++ goQuote env.databaseName)
            err := none, fs := fs2, patchCalls := [backupPatch] }

/-- `DatabaseBackupTaskExecutor.RunOnce`: decode the task payload, load the
backup entity, for `LOCAL` backups check the available filesystem space
against `minAvailableFSBytes`, then dump/upload and patch the backup. -/
def RunOnce (env : BackupEnv) (fs : FileSystem) : RunOnceResult :=
  match env.decodeResult with
  | .error e =>
      { terminated := true, result := none
        err := some (wrapErr e "invalid database backup payload")
        fs := fs, patchCalls := [] }
  | .ok backupID =>
    match env.getBackup with
    | .error e =>
        { terminated := true, result := none
          err := some (wrapErr e ("failed to find backup with ID " ++
            toString backupID))
          fs := fs, patchCalls := [] }
    | .ok none =>
        { terminated := true, result := none
          err := some ("backup " ++ toString backupID ++ " not found")
          fs := fs, patchCalls := [] }
    | .ok (some backup) =>
        if backup.storageBackend = .LOCAL then
          let backupFileDir := filepathDir (filepathJoin env.dataDir backup.path)
          match getAvailableFSSpace env with
          | .error e =>
              { terminated := true, result := none
                err := some (wrapErr e
                  ("failed to get available file system space, backup file dir is "
                    ++ backupFileDir))
                fs := fs, patchCalls := [] }
          | .ok availableBytes =>
              if availableBytes < minAvailableFSBytes then
                { terminated := true, result := none
                  err := some ("the available file system space " ++
                    toString (availableBytes / 1024 / 1024) ++
                    "MB is less than the minimal threshold " ++
                    toString (minAvailableFSBytes / 1024 / 1024) ++ "MB")
                  fs := fs, patchCalls := [] }
              else
                runOnceBackupPhase env fs backup
        else
          runOnceBackupPhase env fs backup

/-! ## Concrete fixtures used by the witnesses -/

/-- A sample pipeline row. -/
def pipelineA : Pipeline :=
  { id := 10, creatorId := 3, createdTs := 42, updaterId := 3, updatedTs := 42
    name := "pl", status := .OPEN }

/-- All store collaborators succeed. -/
def storeEnv0 : StoreEnv :=
  { beginOk := true, queryOk := true, commitOk := true, cacheFindOk := true
    cacheUpsertOk := true, now := 42 }

/-- Empty table, empty cache. -/
def storeSt0 : StoreState :=
  { table := [], nextId := 10, cache := [], txCount := 0 }

/-- One row in the table, empty cache. -/
def storeSt1 : StoreState :=
  { table := [pipelineA], nextId := 11, cache := [], txCount := 0 }

/-- One row in the table, the same row cached under its id. -/
def storeStC : StoreState :=
  { table := [pipelineA], nextId := 11, cache := [(10, pipelineA)], txCount := 0 }

/-- Modelled from the spec: the code creating `Backup` entities and
assigning their `Path` field is not among the embedded sources (only its
consumer, the executor, is). The spec fixes the persisted layout as
`<dataDir>/backup/db/<databaseID>/<name>.sql`, i.e. the stored relative
`Path` equals `getBackupRelativeFilePath databaseID name`. -/
def backupPathFollowsLayout (backup : Backup) : Prop :=
  backup.path = getBackupRelativeFilePath backup.databaseID backup.name

/-- A sample S3 backup following the persisted path layout. -/
def backupS3 : Backup :=
  { id := 1, databaseID := 7, name := "bk", storageBackend := .S3
    path := "backup/db/7/bk.sql" }

/-- The same backup with LOCAL storage. -/
def backupLocal : Backup :=
  { backupS3 with storageBackend := .LOCAL }

/-- A backup environment in which every collaborator succeeds, for an S3
backup. -/
def backupEnv0 : BackupEnv :=
  { decodeResult := .ok 1
    getBackup := .ok (some backupS3)
    statfs := .ok (600 * 1024 * 1024)
    getDriver := .ok ()
    createOk := true
    dump := .ok "PAYLOAD"
    openRes := .ok ()
    upload := .ok ()
    patchRes := .ok ()
    dataDir := "/data"
    databaseName := "mydb" }

/-- An environment for an S3 backup whose dump step fails. -/
def envDumpFailS3 : BackupEnv :=
  { backupEnv0 with dump := .error "disk burp" }

/-- The error with which `backupDatabase` surfaces a failed `driver.Dump`:
the driver error wrapped first by `dumpBackupFile` and again by
`backupDatabase`. `RunOnce` records it verbatim as the backup's comment and
returns it. -/
def dumpFailureError (env : BackupEnv) (backup : Backup) (e : String) : String :=
  wrapErr
    (wrapErr e ("failed to dump database " ++ goQuote env.databaseName ++
      " to local backup file " ++
      goQuote (filepathJoin env.dataDir backup.path)))
    ("failed to dump backup file " ++
      goQuote (filepathJoin env.dataDir backup.path))

/-! ## Theorems about the pipeline entity store -/

/-- Helper for C3: the cardinality discrimination of the store-querying tail
of `FindPipeline`. -/
theorem findPipelineStore_cardinality
    (env : StoreEnv) (find : PipelineFind) (st : StoreState)
    (hb : env.beginOk = true) (hq : env.queryOk = true)
    (hcu : env.cacheUpsertOk = true) :
    (findPipelineList find st.table = [] →
      ∃ m, (findPipelineStore env find st).1 = .error ⟨.ENOTFOUND, m⟩) ∧
    (∀ p, findPipelineList find st.table = [p] →
      (findPipelineStore env find st).1 = .ok p) ∧
    (2 ≤ (findPipelineList find st.table).length →
      ∃ m, (findPipelineStore env find st).1 = .error ⟨.ECONFLICT, m⟩) := by
  refine ⟨?_, ?_, ?_⟩
  · intro h
    exact ⟨"pipeline not found", by simp [findPipelineStore, hb, hq, h]⟩
  · intro p h
    simp [findPipelineStore, hb, hq, h, hcu]
  · intro h
    match hl : findPipelineList find st.table with
    | [] => rw [hl] at h; simp at h
    | [p] => rw [hl] at h; simp at h
    | p :: q :: rest =>
        exact ⟨"found " ++ toString (p :: q :: rest).length ++
          " pipelines, expect 1", by simp [findPipelineStore, hb, hq, hl]⟩

/-- C3: on a cache miss or a non-id filter, `FindPipeline` queries the store;
zero matching rows fail with `ENOTFOUND`, two or more rows fail with
`ECONFLICT`, and exactly one row is returned. -/
theorem findPipeline_query_cardinality
    (env : StoreEnv) (find : PipelineFind) (st : StoreState)
    (hb : env.beginOk = true) (hq : env.queryOk = true)
    (hcu : env.cacheUpsertOk = true)
    (hmiss : ∀ i, find.id = some i →
      env.cacheFindOk = true ∧ findCache st.cache i = none) :
    (findPipelineList find st.table = [] →
      ∃ m, (FindPipeline env find st).1 = .error ⟨.ENOTFOUND, m⟩) ∧
    (∀ p, findPipelineList find st.table = [p] →
      (FindPipeline env find st).1 = .ok p) ∧
    (2 ≤ (findPipelineList find st.table).length →
      ∃ m, (FindPipeline env find st).1 = .error ⟨.ECONFLICT, m⟩) := by
  have hstore : FindPipeline env find st = findPipelineStore env find st := by
    match hid : find.id with
    | none => simp [FindPipeline, hid]
    | some i =>
        obtain ⟨hcf, hmiss'⟩ := hmiss i hid
        simp [FindPipeline, hid, hcf, hmiss']
  rw [hstore]
  exact findPipelineStore_cardinality env find st hb hq hcu

/-- Witness for C3 at a concrete input: a status filter matching no row of a
one-row table fails with `ENOTFOUND`. -/
theorem findPipeline_query_cardinality_witness :
    ∃ m, (FindPipeline storeEnv0 ⟨none, some .DONE⟩ storeSt1).1 =
      .error ⟨.ENOTFOUND, m⟩ := by
  have h := findPipeline_query_cardinality storeEnv0 ⟨none, some .DONE⟩ storeSt1
    rfl rfl rfl (by intro i hi; simp at hi)
  exact h.1 (by decide)

/-- C7: `FindPipeline` probes the cache only for exact-id filters; a cache
hit is returned with the state (in particular the `BeginTx` count) completely
unchanged, and a filter without an id always reaches the transactional store
(one more `BeginTx` call, whatever the outcome). -/
theorem findPipeline_cache_probe
    (env : StoreEnv) (find : PipelineFind) (st : StoreState) :
    (∀ i p, find.id = some i → env.cacheFindOk = true →
      findCache st.cache i = some p →
      FindPipeline env find st = (.ok p, st)) ∧
    (find.id = none →
      (FindPipeline env find st).2.txCount = st.txCount + 1) := by
  constructor
  · intro i p hid hcf hc
    simp [FindPipeline, hid, hcf, hc]
  · intro hid
    simp only [FindPipeline, hid]
    unfold findPipelineStore
    cases hb : env.beginOk <;> simp [hb]
    cases hq : env.queryOk <;> simp [hq]
    match hl : findPipelineList find st.table with
    | [] => simp [hl]
    | [p] =>
        cases hcu : env.cacheUpsertOk <;> simp [hl, hcu]
    | p :: q :: rest => simp [hl]

/-- Witness for C7: a cache hit on an exact-id filter returns the cached row
and leaves the state untouched. -/
theorem findPipeline_cache_probe_witness :
    FindPipeline storeEnv0 ⟨some 10, none⟩ storeStC = (.ok pipelineA, storeStC) :=
  (findPipeline_cache_probe storeEnv0 ⟨some 10, none⟩ storeStC).1 10 pipelineA
    rfl rfl (by decide)

/-- C4: `CreatePipeline` and `PatchPipeline` upsert the returned entity into
the cache only after a successful commit; every error return leaves the cache
exactly as it was. -/
theorem createPatch_cache_write_through
    (env : StoreEnv) (create : PipelineCreate) (patch : PipelinePatch)
    (st : StoreState) :
    (∀ e, (CreatePipeline env create st).1 = .error e →
      (CreatePipeline env create st).2.cache = st.cache) ∧
    (∀ p, (CreatePipeline env create st).1 = .ok p →
      env.commitOk = true ∧
      (CreatePipeline env create st).2.cache = upsertCache p.id p st.cache) ∧
    (∀ e, (PatchPipeline env patch st).1 = .error e →
      (PatchPipeline env patch st).2.cache = st.cache) ∧
    (∀ p, (PatchPipeline env patch st).1 = .ok p →
      env.commitOk = true ∧
      (PatchPipeline env patch st).2.cache = upsertCache p.id p st.cache) := by
  cases hb : env.beginOk <;> cases hq : env.queryOk <;>
    cases hco : env.commitOk <;> cases hcu : env.cacheUpsertOk <;>
    cases hf : st.table.find? (fun p => p.id = patch.id) <;>
    simp [CreatePipeline, PatchPipeline, hb, hq, hco, hcu, hf]

/-- Witness for C4: with a failing `BeginTx` the cache is untouched, and on
full success the returned row is what is upserted. -/
theorem createPatch_cache_write_through_witness :
    (CreatePipeline { storeEnv0 with beginOk := false } ⟨3, "pl"⟩ storeSt0).2.cache
        = storeSt0.cache ∧
    (CreatePipeline storeEnv0 ⟨3, "pl"⟩ storeSt0).2.cache
        = upsertCache pipelineA.id pipelineA storeSt0.cache := by
  constructor
  · exact (createPatch_cache_write_through { storeEnv0 with beginOk := false }
      ⟨3, "pl"⟩ ⟨10, 4, none⟩ storeSt0).1 ⟨.EINTERNAL, "failed to begin transaction"⟩ rfl
  · exact ((createPatch_cache_write_through storeEnv0
      ⟨3, "pl"⟩ ⟨10, 4, none⟩ storeSt0).2.1 pipelineA rfl).2

/-- C5: a pipeline successfully returned by `CreatePipeline` or
`PatchPipeline` is found again, deep-equal, by a subsequent exact-id
`FindPipeline` on the resulting state (write-through cache coherency). -/
theorem createPatch_then_find_roundtrip
    (env : StoreEnv) (create : PipelineCreate) (patch : PipelinePatch)
    (st : StoreState) (hcf : env.cacheFindOk = true) :
    (∀ p st', CreatePipeline env create st = (.ok p, st') →
      FindPipeline env ⟨some p.id, none⟩ st' = (.ok p, st')) ∧
    (∀ p st', PatchPipeline env patch st = (.ok p, st') →
      FindPipeline env ⟨some p.id, none⟩ st' = (.ok p, st')) := by
  constructor
  · intro p st' h
    cases hb : env.beginOk <;> cases hq : env.queryOk <;>
      cases hco : env.commitOk <;> cases hcu : env.cacheUpsertOk <;>
      simp [CreatePipeline, hb, hq, hco, hcu] at h
    obtain ⟨hp, hst⟩ := h
    subst hp
    subst hst
    simp [FindPipeline, hcf, findCache, upsertCache, List.find?]
  · intro p st' h
    cases hb : env.beginOk <;> cases hq : env.queryOk <;>
      cases hco : env.commitOk <;> cases hcu : env.cacheUpsertOk <;>
      cases hf : st.table.find? (fun q => q.id = patch.id) <;>
      simp [PatchPipeline, hb, hq, hco, hcu, hf] at h
    obtain ⟨hp, hst⟩ := h
    subst hp
    subst hst
    simp [FindPipeline, hcf, findCache, upsertCache, List.find?]

/-- Witness for C5: create on an empty store, then find by the fresh id. -/
theorem createPatch_then_find_roundtrip_witness :
    FindPipeline storeEnv0 ⟨some 10, none⟩
        (CreatePipeline storeEnv0 ⟨3, "pl"⟩ storeSt0).2 =
      (.ok pipelineA, (CreatePipeline storeEnv0 ⟨3, "pl"⟩ storeSt0).2) :=
  (createPatch_then_find_roundtrip storeEnv0 ⟨3, "pl"⟩ ⟨10, 4, none⟩ storeSt0
    rfl).1 pipelineA (CreatePipeline storeEnv0 ⟨3, "pl"⟩ storeSt0).2 rfl

/-! ## Theorems about the backup task executor -/

/-- A path just created by `os.Create` exists. -/
theorem mem_fsCreate (p : String) (fs : FileSystem) : p ∈ fsCreate p fs := by
  unfold fsCreate
  split
  · assumption
  · exact List.mem_cons_self p fs

/-- A path just removed by `os.Remove` no longer exists. -/
theorem not_mem_fsRemove (p : String) (fs : FileSystem) : p ∉ fsRemove p fs := by
  simp [fsRemove]

/-- C2: for a `LOCAL` backup with fewer than `minAvailableFSBytes` available
at the target directory, `RunOnce` terminates with an error before writing:
the filesystem is untouched (so no dump file exists afterwards) and no
`PatchBackup` call is made. -/
theorem runOnce_local_space_guard
    (env : BackupEnv) (fs : FileSystem) (bid : Nat) (backup : Backup) (n : Nat)
    (hdec : env.decodeResult = .ok bid)
    (hget : env.getBackup = .ok (some backup))
    (hl : backup.storageBackend = .LOCAL)
    (hst : env.statfs = .ok n)
    (hn : n < minAvailableFSBytes) :
    (RunOnce env fs).terminated = true ∧
    (RunOnce env fs).err.isSome = true ∧
    (RunOnce env fs).fs = fs ∧
    (RunOnce env fs).patchCalls = [] := by
  simp [RunOnce, hdec, hget, hl, getAvailableFSSpace, hst, hn]

/-- Witness for C2: a LOCAL backup with 100 MiB available fails with the
filesystem unchanged. -/
theorem runOnce_local_space_guard_witness :
    (RunOnce { backupEnv0 with
        getBackup := .ok (some backupLocal)
        statfs := .ok (100 * 1024 * 1024) } []).err.isSome = true ∧
    (RunOnce { backupEnv0 with
        getBackup := .ok (some backupLocal)
        statfs := .ok (100 * 1024 * 1024) } []).fs = [] := by
  have h := runOnce_local_space_guard
    { backupEnv0 with
        getBackup := .ok (some backupLocal)
        statfs := .ok (100 * 1024 * 1024) } [] 1 backupLocal
    (100 * 1024 * 1024) rfl rfl (by decide) rfl (by decide)
  exact ⟨h.2.1, h.2.2.1⟩

/-- C9: `RunOnce` always returns `terminated = true`, and returns the
descriptive success result exactly when it returns no error. -/
theorem runOnce_always_terminated (env : BackupEnv) (fs : FileSystem) :
    (RunOnce env fs).terminated = true ∧
    (RunOnce env fs).result =
      (if (RunOnce env fs).err = none
        then some ("Backup database " ++ goQuote env.databaseName)
        else none) := by
  have hphase : ∀ backup : Backup,
      (runOnceBackupPhase env fs backup).terminated = true ∧
      (runOnceBackupPhase env fs backup).result =
        (if (runOnceBackupPhase env fs backup).err = none
          then some ("Backup database " ++ goQuote env.databaseName)
          else none) := by
    intro backup
    cases hres : (backupDatabase env fs backup).1 <;>
      cases hp : env.patchRes <;>
      simp [runOnceBackupPhase, hres, hp]
  cases hdec : env.decodeResult with
  | error e => simp [RunOnce, hdec]
  | ok bid =>
    cases hget : env.getBackup with
    | error e => simp [RunOnce, hdec, hget]
    | ok ob =>
      cases ob with
      | none => simp [RunOnce, hdec, hget]
      | some backup =>
        by_cases hl : backup.storageBackend = .LOCAL
        · cases hst : env.statfs with
          | error e => simp [RunOnce, hdec, hget, hl, getAvailableFSSpace, hst]
          | ok n =>
            by_cases hn : n < minAvailableFSBytes
            · simp [RunOnce, hdec, hget, hl, getAvailableFSSpace, hst, hn]
            · simpa [RunOnce, hdec, hget, hl, getAvailableFSSpace, hst, hn]
                using hphase backup
        · simpa [RunOnce, hdec, hget, hl] using hphase backup

/-- Helper for C10: the dump/upload/patch phase never consults the statfs
result. -/
theorem runOnceBackupPhase_statfs_irrelevant
    (d : Except String Nat) (g : Except String (Option Backup))
    (a b : Except String Nat) (gd : Except String Unit) (c : Bool)
    (du : Except String String) (o u p : Except String Unit)
    (dd dn : String) (fs : FileSystem) (backup : Backup) :
    runOnceBackupPhase ⟨d, g, a, gd, c, du, o, u, p, dd, dn⟩ fs backup =
      runOnceBackupPhase ⟨d, g, b, gd, c, du, o, u, p, dd, dn⟩ fs backup := rfl

/-- C10: for a backup whose storage backend is not `LOCAL`, `RunOnce` never
performs the available-filesystem-space check: its entire behaviour is
independent of the statfs outcome. -/
theorem runOnce_no_space_check_nonlocal
    (env : BackupEnv) (fs : FileSystem) (a b : Except String Nat)
    (bid : Nat) (backup : Backup)
    (hdec : env.decodeResult = .ok bid)
    (hget : env.getBackup = .ok (some backup))
    (hnl : backup.storageBackend ≠ .LOCAL) :
    RunOnce { env with statfs := a } fs = RunOnce { env with statfs := b } fs := by
  obtain ⟨d, g, st, gd, c, du, o, u, p, dd, dn⟩ := env
  simp only at hdec hget
  subst hdec
  subst hget
  simp only [RunOnce, if_neg hnl]
  exact runOnceBackupPhase_statfs_irrelevant _ _ a b gd c du o u p dd dn fs backup

/-- Witness for C10: an S3 backup behaves identically whether statfs reports
zero bytes free or fails outright. -/
theorem runOnce_no_space_check_nonlocal_witness :
    RunOnce { backupEnv0 with statfs := .ok 0 } [] =
      RunOnce { backupEnv0 with statfs := .error "statfs broken" } [] :=
  runOnce_no_space_check_nonlocal backupEnv0 [] (.ok 0) (.error "statfs broken")
    1 backupS3 rfl rfl (by decide)

/-- C1: for an S3 backup whose dump succeeds: a successful upload leads to
the local dump file being removed and the backup patched to `DONE`; a failed
upload leaves the local file on disk and patches the backup to `FAILED` with
the (wrapped) upload error as comment, which is also the returned error. -/
theorem runOnce_s3_upload_outcome
    (env : BackupEnv) (fs : FileSystem) (bid : Nat) (backup : Backup)
    (payload : String)
    (hdec : env.decodeResult = .ok bid)
    (hget : env.getBackup = .ok (some backup))
    (hs3 : backup.storageBackend = .S3)
    (hdrv : env.getDriver = .ok ())
    (hcr : env.createOk = true)
    (hdump : env.dump = .ok payload)
    (hopen : env.openRes = .ok ())
    (hpatch : env.patchRes = .ok ()) :
    (env.upload = .ok () →
      (RunOnce env fs).err = none ∧
      filepathJoin env.dataDir backup.path ∉ (RunOnce env fs).fs ∧
      (RunOnce env fs).patchCalls =
        [{ id := backup.id, status := "DONE", updaterID := systemBotID
           comment := "", payload := payload }]) ∧
    (∀ e, env.upload = .error e →
      (RunOnce env fs).err =
        some (wrapErr e "failed to upload backup to AWS S3") ∧
      filepathJoin env.dataDir backup.path ∈ (RunOnce env fs).fs ∧
      (RunOnce env fs).patchCalls =
        [{ id := backup.id, status := "FAILED", updaterID := systemBotID
           comment := wrapErr e "failed to upload backup to AWS S3"
           payload := "" }]) := by
  constructor
  · intro hup
    simp [RunOnce, hdec, hget, hs3, runOnceBackupPhase, backupDatabase,
      dumpBackupFile, hdrv, hcr, hdump, hopen, hup, hpatch]
    exact not_mem_fsRemove (filepathJoin env.dataDir backup.path)
      (fsCreate (filepathJoin env.dataDir backup.path) fs)
  · intro e hup
    simp [RunOnce, hdec, hget, hs3, runOnceBackupPhase, backupDatabase,
      dumpBackupFile, removeLocalBackupFile, hdrv, hcr, hdump, hopen, hup,
      hpatch]
    exact mem_fsCreate (filepathJoin env.dataDir backup.path) fs

/-- Witness for C1: concrete S3 backups, one with a succeeding upload, one
with a failing one. -/
theorem runOnce_s3_upload_outcome_witness :
    ((RunOnce backupEnv0 []).err = none ∧
      "/data/backup/db/7/bk.sql" ∉ (RunOnce backupEnv0 []).fs) ∧
    ((RunOnce { backupEnv0 with upload := .error "net down" } []).err =
        some "failed to upload backup to AWS S3: net down" ∧
      "/data/backup/db/7/bk.sql" ∈
        (RunOnce { backupEnv0 with upload := .error "net down" } []).fs) := by
  constructor
  · have h := (runOnce_s3_upload_outcome backupEnv0 [] 1 backupS3 "PAYLOAD"
      rfl rfl rfl rfl rfl rfl rfl rfl).1 rfl
    exact ⟨h.1, h.2.1⟩
  · have h := (runOnce_s3_upload_outcome
      { backupEnv0 with upload := .error "net down" } [] 1 backupS3 "PAYLOAD"
      rfl rfl rfl rfl rfl rfl rfl rfl).2 "net down" rfl
    exact ⟨h.1, h.2.1⟩

/-- A path that survives `os.Remove` was already present. -/
theorem mem_of_mem_fsRemove (p L : String) (X : FileSystem)
    (h : p ∈ fsRemove L X) : p ∈ X :=
  (List.mem_filter.mp h).1

/-- `os.Create` never deletes an existing file. -/
theorem mem_fsCreate_of_mem (p L : String) (fs : FileSystem) (h : p ∈ fs) :
    p ∈ fsCreate L fs := by
  unfold fsCreate
  split
  · exact h
  · exact List.mem_cons_of_mem L h

/-- Frame base case: the untouched filesystem adds nothing and loses
nothing. -/
theorem fs_frame_id (L : String) (fs : FileSystem) :
    (∀ p, p ∈ fs → p ∈ fs ∨ p = L) ∧
    (∀ p, p ∈ fs → p ∉ fs → p = L) := by
  constructor
  · intro p hp
    exact Or.inl hp
  · intro p hp hnp
    exact absurd hp hnp

/-- Frame step: `os.Create` at `L` adds at most `L` and loses nothing. -/
theorem fs_frame_create (L : String) (fs : FileSystem) :
    (∀ p, p ∈ fsCreate L fs → p ∈ fs ∨ p = L) ∧
    (∀ p, p ∈ fs → p ∉ fsCreate L fs → p = L) := by
  constructor
  · intro p hp
    unfold fsCreate at hp
    by_cases hm : L ∈ fs
    · rw [if_pos hm] at hp
      exact Or.inl hp
    · rw [if_neg hm] at hp
      rcases List.mem_cons.mp hp with h | h
      · exact Or.inr h
      · exact Or.inl h
  · intro p hp hnp
    exact absurd (mem_fsCreate_of_mem p L fs hp) hnp

/-- Frame step: `os.Remove` at `L` preserves the frame bound — it deletes at
most `L` and adds nothing. -/
theorem fs_frame_remove (L : String) (fs X : FileSystem)
    (h1 : ∀ p, p ∈ X → p ∈ fs ∨ p = L)
    (h2 : ∀ p, p ∈ fs → p ∉ X → p = L) :
    (∀ p, p ∈ fsRemove L X → p ∈ fs ∨ p = L) ∧
    (∀ p, p ∈ fs → p ∉ fsRemove L X → p = L) := by
  constructor
  · intro p hp
    exact h1 p (mem_of_mem_fsRemove p L X hp)
  · intro p hp hnp
    by_cases hpl : p = L
    · exact hpl
    · refine h2 p hp ?_
      intro hpx
      exact hnp (by simp [fsRemove, List.mem_filter, hpx, hpl])

/-- The possible filesystem effects of `backupDatabase`: nothing, create the
local dump file, or create it and remove it again (S3 upload success). -/
theorem backupDatabase_fs_cases (env : BackupEnv) (fs : FileSystem)
    (backup : Backup) :
    (backupDatabase env fs backup).2 = fs ∨
    (backupDatabase env fs backup).2 =
      fsCreate (filepathJoin env.dataDir backup.path) fs ∨
    (backupDatabase env fs backup).2 =
      fsRemove (filepathJoin env.dataDir backup.path)
        (fsCreate (filepathJoin env.dataDir backup.path) fs) := by
  cases hgd : env.getDriver with
  | error e => simp [backupDatabase, hgd]
  | ok u =>
    cases hcr : env.createOk
    · simp [backupDatabase, dumpBackupFile, hgd, hcr]
    · cases hd : env.dump with
      | error e => simp [backupDatabase, dumpBackupFile, hgd, hcr, hd]
      | ok payload =>
        cases hsb : backup.storageBackend with
        | LOCAL => simp [backupDatabase, dumpBackupFile, hgd, hcr, hd, hsb]
        | other str => simp [backupDatabase, dumpBackupFile, hgd, hcr, hd, hsb]
        | S3 =>
          cases ho : env.openRes with
          | error e => simp [backupDatabase, dumpBackupFile, hgd, hcr, hd, hsb, ho]
          | ok u2 =>
            cases hu : env.upload with
            | error e =>
                simp [backupDatabase, dumpBackupFile, hgd, hcr, hd, hsb, ho, hu]
            | ok u3 =>
                simp [backupDatabase, dumpBackupFile, hgd, hcr, hd, hsb, ho, hu]

/-- The possible filesystem effects of `removeLocalBackupFile`: nothing, or
removal of the layout path. -/
theorem removeLocalBackupFile_fs_cases (dataDir : String) (backup : Backup)
    (fs : FileSystem) :
    (removeLocalBackupFile dataDir backup fs).2 = fs ∨
    (removeLocalBackupFile dataDir backup fs).2 =
      fsRemove (getBackupAbsFilePath dataDir backup.databaseID backup.name)
        fs := by
  unfold removeLocalBackupFile
  split
  · simp
  · by_cases hm :
      getBackupAbsFilePath dataDir backup.databaseID backup.name ∈ fs <;>
      simp [hm]

/-- The filesystem after the dump/patch phase is the one produced by
`backupDatabase`, possibly post-processed by `removeLocalBackupFile`. -/
theorem runOnceBackupPhase_fs_cases (env : BackupEnv) (fs : FileSystem)
    (backup : Backup) :
    (runOnceBackupPhase env fs backup).fs = (backupDatabase env fs backup).2 ∨
    (runOnceBackupPhase env fs backup).fs =
      (removeLocalBackupFile env.dataDir backup
        (backupDatabase env fs backup).2).2 := by
  rcases h1 : (backupDatabase env fs backup).1 with e | p <;>
    rcases hp : env.patchRes with e2 | u <;>
    simp [runOnceBackupPhase, h1, hp]

/-- Frame bound for the dump/patch phase: when the stored path coincides with
the layout path, the only file it can create or delete is the local dump
file. -/
theorem runOnceBackupPhase_fs_mem (env : BackupEnv) (fs : FileSystem)
    (backup : Backup)
    (hL : getBackupAbsFilePath env.dataDir backup.databaseID backup.name =
      filepathJoin env.dataDir backup.path) :
    (∀ p, p ∈ (runOnceBackupPhase env fs backup).fs →
      p ∈ fs ∨ p = filepathJoin env.dataDir backup.path) ∧
    (∀ p, p ∈ fs → p ∉ (runOnceBackupPhase env fs backup).fs →
      p = filepathJoin env.dataDir backup.path) := by
  have hbdmem :
      (∀ p, p ∈ (backupDatabase env fs backup).2 →
        p ∈ fs ∨ p = filepathJoin env.dataDir backup.path) ∧
      (∀ p, p ∈ fs → p ∉ (backupDatabase env fs backup).2 →
        p = filepathJoin env.dataDir backup.path) := by
    rcases backupDatabase_fs_cases env fs backup with h | h | h <;> rw [h]
    · exact fs_frame_id (filepathJoin env.dataDir backup.path) fs
    · exact fs_frame_create (filepathJoin env.dataDir backup.path) fs
    · exact fs_frame_remove (filepathJoin env.dataDir backup.path) fs _
        (fs_frame_create (filepathJoin env.dataDir backup.path) fs).1
        (fs_frame_create (filepathJoin env.dataDir backup.path) fs).2
  rcases runOnceBackupPhase_fs_cases env fs backup with h | h <;> rw [h]
  · exact hbdmem
  · rcases removeLocalBackupFile_fs_cases env.dataDir backup
      (backupDatabase env fs backup).2 with hr | hr <;> rw [hr]
    · exact hbdmem
    · rw [hL]
      exact fs_frame_remove (filepathJoin env.dataDir backup.path) fs _
        hbdmem.1 hbdmem.2

/-- C8: for every backup task whose stored `Path` follows the persisted
layout, and for every storage backend and every outcome of the external
calls, the local dump destination is exactly
`getBackupAbsFilePath dataDir databaseID name` =
`<dataDir>/backup/db/<databaseID>/<name>.sql`: the dump step writes exactly
that file, that path is the only file `RunOnce` can create and the only file
it can delete, and a successful LOCAL run ends with exactly that file
added. -/
theorem runOnce_backup_layout
    (env : BackupEnv) (fs : FileSystem) (bid : Nat) (backup : Backup)
    (hlayout : backupPathFollowsLayout backup)
    (hdec : env.decodeResult = .ok bid)
    (hget : env.getBackup = .ok (some backup)) :
    filepathJoin env.dataDir backup.path =
      getBackupAbsFilePath env.dataDir backup.databaseID backup.name ∧
    (env.createOk = true →
      (dumpBackupFile env fs (filepathJoin env.dataDir backup.path)).2 =
        fsCreate (getBackupAbsFilePath env.dataDir backup.databaseID backup.name)
          fs) ∧
    (∀ p, p ∈ (RunOnce env fs).fs →
      p ∈ fs ∨
        p = getBackupAbsFilePath env.dataDir backup.databaseID backup.name) ∧
    (∀ p, p ∈ fs → p ∉ (RunOnce env fs).fs →
      p = getBackupAbsFilePath env.dataDir backup.databaseID backup.name) ∧
    (∀ n payload, backup.storageBackend = .LOCAL →
      env.statfs = .ok n → minAvailableFSBytes ≤ n →
      env.getDriver = .ok () → env.createOk = true → env.dump = .ok payload →
      (RunOnce env fs).fs =
        fsCreate (getBackupAbsFilePath env.dataDir backup.databaseID backup.name)
          fs) := by
  have hpath : filepathJoin env.dataDir backup.path =
      getBackupAbsFilePath env.dataDir backup.databaseID backup.name := by
    unfold backupPathFollowsLayout at hlayout
    rw [hlayout]
    rfl
  have hmem := runOnceBackupPhase_fs_mem env fs backup hpath.symm
  have hrun : (RunOnce env fs).fs = fs ∨
      (RunOnce env fs).fs = (runOnceBackupPhase env fs backup).fs := by
    by_cases hl : backup.storageBackend = .LOCAL
    · cases hst : env.statfs with
      | error e => simp [RunOnce, hdec, hget, hl, getAvailableFSSpace, hst]
      | ok n =>
        by_cases hn : n < minAvailableFSBytes
        · simp [RunOnce, hdec, hget, hl, getAvailableFSSpace, hst, hn]
        · simp [RunOnce, hdec, hget, hl, getAvailableFSSpace, hst, hn]
    · simp [RunOnce, hdec, hget, hl]
  refine ⟨hpath, ?_, ?_, ?_, ?_⟩
  · intro hcr
    rw [← hpath]
    cases hd : env.dump <;> simp [dumpBackupFile, hcr, hd]
  · intro p hp
    rw [← hpath]
    rcases hrun with h | h
    · rw [h] at hp
      exact Or.inl hp
    · rw [h] at hp
      exact hmem.1 p hp
  · intro p hp hnp
    rw [← hpath]
    rcases hrun with h | h
    · rw [h] at hnp
      exact absurd hp hnp
    · rw [h] at hnp
      exact hmem.2 p hp hnp
  · intro n payload hl hst hn hdrv hcr hdump
    have hnlt : ¬ n < minAvailableFSBytes := Nat.not_lt.mpr hn
    cases hp : env.patchRes <;>
      simp [RunOnce, hdec, hget, hl, getAvailableFSSpace, hst, hnlt,
        runOnceBackupPhase, backupDatabase, dumpBackupFile, hdrv, hcr, hdump,
        hp, hpath]

/-- Witness for C8: the concrete LOCAL backup is dumped to
`/data/backup/db/7/bk.sql`. -/
theorem runOnce_backup_layout_witness :
    (RunOnce { backupEnv0 with getBackup := .ok (some backupLocal) } []).fs =
      ["/data/backup/db/7/bk.sql"] := by
  have h := (runOnce_backup_layout
    { backupEnv0 with getBackup := .ok (some backupLocal) } [] 1 backupLocal
    (by rfl) rfl rfl).2.2.2.2 (600 * 1024 * 1024) "PAYLOAD" (by decide) rfl
    (by decide) rfl rfl rfl
  simpa [getBackupAbsFilePath, getBackupRelativeFilePath, getBackupRelativeDir,
    filepathJoin, fsCreate] using h

/-- Counterexample for C6: for an S3 backup whose dump fails, `RunOnce`
returns the dump error and patches the backup to `FAILED`, but the partially
written local dump file is still on disk afterwards — `removeLocalBackupFile`
is a no-op for every storage backend other than `LOCAL`. -/
theorem runOnce_dump_cleanup_counterexample :
    envDumpFailS3.dump = .error "disk burp" ∧
    (RunOnce envDumpFailS3 []).err.isSome = true ∧
    (RunOnce envDumpFailS3 []).patchCalls.map (fun c => c.status) = ["FAILED"] ∧
    "/data/backup/db/7/bk.sql" ∈ (RunOnce envDumpFailS3 []).fs := by
  refine ⟨rfl, ?_, ?_, ?_⟩ <;> decide

/-- C6 as amended: when the dump step fails, `RunOnce` patches the backup to
`FAILED` with the (wrapped) dump error as comment and returns that error, and
it deletes the partially written local dump file only when the backup's
storage backend is `LOCAL`; for every other backend (S3 or unsupported) the
partial file remains on disk. -/
theorem runOnce_dump_cleanup_amended
    (env : BackupEnv) (fs : FileSystem) (bid : Nat) (backup : Backup)
    (e : String) (n : Nat)
    (hdec : env.decodeResult = .ok bid)
    (hget : env.getBackup = .ok (some backup))
    (hdrv : env.getDriver = .ok ())
    (hcr : env.createOk = true)
    (hdump : env.dump = .error e)
    (hpatch : env.patchRes = .ok ()) :
    (backup.storageBackend = .LOCAL →
      env.statfs = .ok n → minAvailableFSBytes ≤ n →
      backupPathFollowsLayout backup →
      filepathJoin env.dataDir backup.path ∉ (RunOnce env fs).fs ∧
      (RunOnce env fs).patchCalls =
        [{ id := backup.id, status := "FAILED", updaterID := systemBotID
           comment := dumpFailureError env backup e, payload := "" }] ∧
      (RunOnce env fs).err = some (dumpFailureError env backup e)) ∧
    (backup.storageBackend ≠ .LOCAL →
      filepathJoin env.dataDir backup.path ∈ (RunOnce env fs).fs ∧
      (RunOnce env fs).patchCalls =
        [{ id := backup.id, status := "FAILED", updaterID := systemBotID
           comment := dumpFailureError env backup e, payload := "" }] ∧
      (RunOnce env fs).err = some (dumpFailureError env backup e)) := by
  constructor
  · intro hl hst hn hlayout
    unfold backupPathFollowsLayout at hlayout
    have hpath : getBackupAbsFilePath env.dataDir backup.databaseID backup.name
        = filepathJoin env.dataDir backup.path := by
      rw [hlayout]
      rfl
    have hnlt : ¬ n < minAvailableFSBytes := Nat.not_lt.mpr hn
    have hmem : filepathJoin env.dataDir backup.path ∈
        fsCreate (filepathJoin env.dataDir backup.path) fs :=
      mem_fsCreate _ fs
    simp [RunOnce, hdec, hget, hl, getAvailableFSSpace, hst, hnlt,
      runOnceBackupPhase, backupDatabase, dumpBackupFile, hdrv, hcr, hdump,
      hpatch, removeLocalBackupFile, hpath, hmem, dumpFailureError]
    exact not_mem_fsRemove (filepathJoin env.dataDir backup.path)
      (fsCreate (filepathJoin env.dataDir backup.path) fs)
  · intro hnl
    simp [RunOnce, hdec, hget, hnl, runOnceBackupPhase, backupDatabase,
      dumpBackupFile, hdrv, hcr, hdump, hpatch, removeLocalBackupFile,
      dumpFailureError]
    exact mem_fsCreate (filepathJoin env.dataDir backup.path) fs

/-- Witness for the amended C6: a LOCAL backup whose dump fails ends with no
local dump file, while the same failure on an S3 backup leaves the partial
file on disk; both record the dump error as the patch comment. -/
theorem runOnce_dump_cleanup_amended_witness :
    ("/data/backup/db/7/bk.sql" ∉
      (RunOnce { envDumpFailS3 with getBackup := .ok (some backupLocal) } []).fs ∧
     (RunOnce { envDumpFailS3 with getBackup := .ok (some backupLocal) }
        []).patchCalls.map (fun c => c.comment) =
      [dumpFailureError { envDumpFailS3 with getBackup := .ok (some backupLocal) }
        backupLocal "disk burp"]) ∧
    "/data/backup/db/7/bk.sql" ∈ (RunOnce envDumpFailS3 []).fs := by
  constructor
  · have h := ((runOnce_dump_cleanup_amended
      { envDumpFailS3 with getBackup := .ok (some backupLocal) } [] 1 backupLocal
      "disk burp" (600 * 1024 * 1024) rfl rfl rfl rfl rfl rfl).1
      (by decide) rfl (by decide) (by rfl))
    constructor
    · simpa [filepathJoin] using h.1
    · rw [h.2.1]
      rfl
  · have h := ((runOnce_dump_cleanup_amended
      envDumpFailS3 [] 1 backupS3
      "disk burp" (600 * 1024 * 1024) rfl rfl rfl rfl rfl rfl).2
      (by decide))
    simpa [filepathJoin] using h.1
